import Mathlib

/-!
Shallow embedding of the WebSocket relay in
`src/gemini/multimodal-live-api/websocket-demo-app/backend/main.py`.

Pure data is translated directly; the effectful parts (websocket sends,
closes, logging) are made explicit: each operation returns a record of the
frames it put on the wire, the close frames it issued and the log entries it
produced.  Transport-level nondeterminism (whether a peer is still open,
whether a send raises) is passed in as explicit parameters, so every Python
execution of the relay corresponds to one choice of those parameters.
-/

namespace GenAIProxy

/-- Embeds `websockets.protocol.State`. -/
inductive State where
  | CONNECTING
  | OPEN
  | CLOSING
  | CLOSED
deriving DecidableEq, Repr

/-- Module-level constant `HOST` from `main.py`. -/
def HOST : String := "generativelanguage.googleapis.com"

/-- Embeds `WEBSOCKET_PATH.format(model=...)`: the template
`"/v1beta/models/{model}:streamGenerateContent"` with `{model}` substituted. -/
def WEBSOCKET_PATH (model : String) : String :=
  "/v1beta/models/" ++ model ++ ":streamGenerateContent"

/-- Module-level constant `MODEL` from `main.py`. -/
def MODEL : String := "gemini-2.0-flash-exp"

/-- A websocket object as `get_websocket_state` observes it: the duck-typed
attributes it probes (`ws.state`, `ws.connection.state`, and for
`close_websocket` whether a `close` attribute exists).  `none` models a
missing attribute. -/
structure WS where
  state_attr : Option State
  connection_state_attr : Option State
  has_close : Bool
deriving DecidableEq, Repr

/-- Embeds `get_websocket_state`: return `ws.state` if present, else
`ws.connection.state` if present, else `State.CLOSED`; any internal error also
yields `State.CLOSED` (the function is total). -/
def get_websocket_state (ws : WS) : State :=
  match ws.state_attr with
  | some s => s
  | none =>
    match ws.connection_state_attr with
    | some s => s
    | none => State.CLOSED

/-- Embeds `is_websocket_open`: `get_websocket_state(ws) is State.OPEN`. -/
def is_websocket_open (ws : WS) : Bool :=
  match get_websocket_state ws with
  | State.OPEN => true
  | _ => false

/-- Result of `close_websocket`: the close frame issued (code, reason), if
any, and whether an exception escaped (never: the body is wrapped in
`try/except`). -/
structure CloseResult where
  close_frame : Option (Nat × String)
  raised : Bool
deriving DecidableEq, Repr

/-- Embeds `close_websocket`: calls `ws.close(code, reason)` only when the
object has a `close` attribute and `is_websocket_open` holds; every exception
is caught and only logged. -/
def close_websocket (ws : WS) (code : Nat := 1000)
    (reason : String := "Normal closure") : CloseResult :=
  if ws.has_close && is_websocket_open ws then
    { close_frame := some (code, reason), raised := false }
  else
    { close_frame := none, raised := false }

/-- A decoded JSON value, as returned by Python's `json.loads`.  Numbers keep
their literal text (their numeric value never matters to the relay). -/
inductive JsonVal where
  | null
  | bool (b : Bool)
  | num (raw : String)
  | str (s : String)
  | arr (elems : List JsonVal)
  | obj (fields : List (String × JsonVal))
deriving Repr, Inhabited, BEq

/-- Drops leading JSON whitespace. -/
def skip_ws : List Char → List Char
  | [] => []
  | c :: cs =>
    if c = ' ' ∨ c = '\t' ∨ c = '\n' ∨ c = '\r' then skip_ws cs else c :: cs

/-- Value of a hex digit, if `c` is one. -/
def hex_digit_val (c : Char) : Option Nat :=
  if '0' ≤ c ∧ c ≤ '9' then some (c.toNat - 48)
  else if 'a' ≤ c ∧ c ≤ 'f' then some (c.toNat - 87)
  else if 'A' ≤ c ∧ c ≤ 'F' then some (c.toNat - 55)
  else none

/-- Parses the body of a JSON string (the opening quote already consumed),
returning the decoded characters and the input after the closing quote.
Escapes follow `json.loads` (strict mode: raw control characters rejected). -/
def parse_string_body : List Char → Option (List Char × List Char)
  | [] => none
  | '"' :: cs => some ([], cs)
  | '\\' :: 'u' :: a :: b :: c :: d :: cs => do
    let ha ← hex_digit_val a
    let hb ← hex_digit_val b
    let hc ← hex_digit_val c
    let hd ← hex_digit_val d
    let (content, rest) ← parse_string_body cs
    pure (Char.ofNat (((ha * 16 + hb) * 16 + hc) * 16 + hd) :: content, rest)
  | '\\' :: e :: cs => do
    let ch ←
      match e with
      | '"' => some '"'
      | '\\' => some '\\'
      | '/' => some '/'
      | 'b' => some (Char.ofNat 8)
      | 'f' => some (Char.ofNat 12)
      | 'n' => some '\n'
      | 'r' => some '\r'
      | 't' => some '\t'
      | _ => none
    let (content, rest) ← parse_string_body cs
    pure (ch :: content, rest)
  | c :: cs =>
    if c.toNat < 32 then none
    else do
      let (content, rest) ← parse_string_body cs
      pure (c :: content, rest)

/-- Is `c` an ASCII digit. -/
def is_digit (c : Char) : Bool := '0' ≤ c ∧ c ≤ '9'

/-- Splits off a maximal run of digits. -/
def take_digits : List Char → List Char × List Char
  | [] => ([], [])
  | c :: cs =>
    if is_digit c then
      let (ds, rest) := take_digits cs
      (c :: ds, rest)
    else ([], c :: cs)

/-- The integer part of a JSON number: `0`, or a nonzero digit followed by
digits. -/
def parse_int_part : List Char → Option (List Char × List Char)
  | [] => none
  | c :: cs =>
    if c = '0' then some (['0'], cs)
    else if is_digit c then
      let (ds, rest) := take_digits cs
      some (c :: ds, rest)
    else none

/-- The optional fraction part `.digits`.  When absent (or malformed, which
ends the number token early) returns `[]` and the unchanged input. -/
def parse_frac_part : List Char → List Char × List Char
  | '.' :: cs =>
    match take_digits cs with
    | ([], _) => ([], '.' :: cs)
    | (ds, rest) => ('.' :: ds, rest)
  | cs => ([], cs)

/-- The optional exponent part `[eE][+-]?digits`. -/
def parse_exp_part : List Char → List Char × List Char
  | e :: cs =>
    if e = 'e' ∨ e = 'E' then
      match cs with
      | s :: cs' =>
        if s = '+' ∨ s = '-' then
          match take_digits cs' with
          | ([], _) => ([], e :: cs)
          | (ds, rest) => (e :: s :: ds, rest)
        else
          match take_digits cs with
          | ([], _) => ([], e :: cs)
          | (ds, rest) => (e :: ds, rest)
      | [] => ([], [e])
    else ([], e :: cs)
  | [] => ([], [])

/-- If `p` is literally a front segment of `cs`, return the remainder. -/
def drop_lit : List Char → List Char → Option (List Char)
  | [], cs => some cs
  | _ :: _, [] => none
  | p :: ps, c :: cs => if p = c then drop_lit ps cs else none

/-- A JSON number token, kept as its literal text.  `NaN`, `Infinity` and
`-Infinity` are accepted, as `json.loads` does by default. -/
def parse_number : List Char → Option (String × List Char)
  | '-' :: cs =>
    (match drop_lit "Infinity".data cs with
     | some rest => some ("-Infinity", rest)
     | none => do
       let (ip, rest1) ← parse_int_part cs
       let (fp, rest2) := parse_frac_part rest1
       let (ep, rest3) := parse_exp_part rest2
       pure (⟨'-' :: (ip ++ fp ++ ep)⟩, rest3))
  | cs => do
    let (ip, rest1) ← parse_int_part cs
    let (fp, rest2) := parse_frac_part rest1
    let (ep, rest3) := parse_exp_part rest2
    pure (⟨ip ++ fp ++ ep⟩, rest3)

mutual

/-- Recursive-descent JSON value parser (fuel-indexed; the fuel bounds the
nesting of recursive calls and is in practice never exhausted for an input of
length below the initial fuel). -/
def parse_value : Nat → List Char → Option (JsonVal × List Char)
  | 0, _ => none
  | Nat.succ fuel, cs0 =>
    match skip_ws cs0 with
    | '"' :: rest =>
      match parse_string_body rest with
      | some (content, rest') => some (.str ⟨content⟩, rest')
      | none => none
    | '\x7b' :: rest =>
      (match skip_ws rest with
       | '\x7d' :: rest2 => some (.obj [], rest2)
       | rest2 =>
         match parse_members fuel rest2 with
         | some (fields, rest3) => some (.obj fields, rest3)
         | none => none)
    | '[' :: rest =>
      (match skip_ws rest with
       | ']' :: rest2 => some (.arr [], rest2)
       | rest2 =>
         match parse_elements fuel rest2 with
         | some (vs, rest3) => some (.arr vs, rest3)
         | none => none)
    | cs =>
      match drop_lit "true".data cs with
      | some rest => some (.bool true, rest)
      | none =>
        match drop_lit "false".data cs with
        | some rest => some (.bool false, rest)
        | none =>
          match drop_lit "null".data cs with
          | some rest => some (.null, rest)
          | none =>
            match drop_lit "NaN".data cs with
            | some rest => some (.num "NaN", rest)
            | none =>
              match drop_lit "Infinity".data cs with
              | some rest => some (.num "Infinity", rest)
              | none =>
                match parse_number cs with
                | some (raw, rest) => some (.num raw, rest)
                | none => none

/-- One or more `"key": value` members, ending at the closing brace. -/
def parse_members : Nat → List Char → Option (List (String × JsonVal) × List Char)
  | 0, _ => none
  | Nat.succ fuel, cs =>
    match skip_ws cs with
    | '"' :: rest =>
      (match parse_string_body rest with
       | none => none
       | some (key, rest2) =>
         match skip_ws rest2 with
         | ':' :: rest3 =>
           (match parse_value fuel rest3 with
            | none => none
            | some (v, rest4) =>
              match skip_ws rest4 with
              | ',' :: rest5 =>
                (match parse_members fuel rest5 with
                 | none => none
                 | some (fields, rest6) => some ((⟨key⟩, v) :: fields, rest6))
              | '\x7d' :: rest5 => some ([(⟨key⟩, v)], rest5)
              | _ => none)
         | _ => none)
    | _ => none

/-- One or more array elements, ending at the closing bracket. -/
def parse_elements : Nat → List Char → Option (List JsonVal × List Char)
  | 0, _ => none
  | Nat.succ fuel, cs =>
    match parse_value fuel cs with
    | none => none
    | some (v, rest) =>
      match skip_ws rest with
      | ',' :: rest2 =>
        (match parse_elements fuel rest2 with
         | none => none
         | some (vs, rest3) => some (v :: vs, rest3))
      | ']' :: rest2 => some ([v], rest2)
      | _ => none

end

/-- Embeds `json.loads` on a text frame: one JSON value with nothing but
whitespace around it, else a parse failure (`none` models
`json.JSONDecodeError`). -/
def json_loads (s : String) : Option JsonVal :=
  match parse_value (s.length + 1) s.data with
  | some (v, rest) => if skip_ws rest = [] then some v else none
  | none => none

/-- Embeds `dict.get(k)` on a decoded JSON object.  `json.loads` builds the
dict left to right, so a duplicated key keeps its last value. -/
def dict_get (fields : List (String × JsonVal)) (k : String) : Option JsonVal :=
  List.lookup k fields.reverse

/-- Truthiness of a JSON number literal in Python: zero is falsy (all mantissa
digits `0`), `NaN`/`Infinity` and every other value are truthy. -/
def json_num_truthy (raw : String) : Bool :=
  (raw.data.takeWhile (fun c => ¬ (c = 'e' ∨ c = 'E'))).any
      (fun c => '1' ≤ c ∧ c ≤ '9')
    || raw.data.any (fun c => c = 'N' ∨ c = 'I')

/-- Python truthiness (`if not api_key`) of a value decoded by `json.loads`:
`None`, `False`, zero, empty string, empty list and empty dict are falsy. -/
def json_truthy : JsonVal → Bool
  | .null => false
  | .bool b => b
  | .num raw => json_num_truthy raw
  | .str s => !(s == "")
  | .arr elems => !elems.isEmpty
  | .obj fields => !fields.isEmpty

/-- One hex digit, lowercase, as `json.dumps` prints escapes. -/
def hex_digit_char (n : Nat) : Char :=
  if n < 10 then Char.ofNat (48 + n) else Char.ofNat (87 + n)

/-- Four lowercase hex digits. -/
def hex4 (n : Nat) : String :=
  ⟨[hex_digit_char (n / 4096 % 16), hex_digit_char (n / 256 % 16),
    hex_digit_char (n / 16 % 16), hex_digit_char (n % 16)]⟩

/-- How `json.dumps` (default `ensure_ascii=True`) renders one character
inside a string literal. -/
def json_escape_char (c : Char) : String :=
  if c = '"' then "\\\""
  else if c = '\\' then "\\\\"
  else if c = '\n' then "\\n"
  else if c = '\r' then "\\r"
  else if c = '\t' then "\\t"
  else if c.toNat = 8 then "\\b"
  else if c.toNat = 12 then "\\f"
  else if c.toNat < 32 ∨ c.toNat > 126 then "\\u" ++ hex4 (c.toNat % 65536)
  else String.singleton c

/-- A `json.dumps` string literal. -/
def json_dumps_str (s : String) : String :=
  "\"" ++ String.join (s.data.map json_escape_char) ++ "\""

/-- Embeds `json.dumps` on the flat string-valued dicts this program
serializes (the `{"error": message}` notification frame). -/
def json_dumps_dict (fields : List (String × String)) : String :=
  "\x7b" ++
    String.intercalate ", "
      (fields.map (fun kv => json_dumps_str kv.1 ++ ": " ++ json_dumps_str kv.2)) ++
  "\x7d"

/-- A value handed to `ws.send` / `send_websocket_message`: a text frame, a
binary frame, or a Python dict (serialized by `send_websocket_message`). -/
inductive Message where
  | text (s : String)
  | binary (payload : List Nat)
  | dict (fields : List (String × String))
deriving Repr, BEq

/-- Serialization done inside `send_websocket_message`: a dict is sent as
`json.dumps(message)`, anything else is sent as-is. -/
def serialize_message : Message → Message
  | .dict fields => .text (json_dumps_dict fields)
  | m => m

/-- Result of `send_websocket_message`: the Python return value (`True` iff
the message went out) and the frame actually put on the wire. -/
structure SendResult where
  ok : Bool
  delivered : Option Message
deriving Repr, BEq

/-- Embeds `send_websocket_message`: sends only when `is_websocket_open`
holds; a raising `ws.send` (modelled by the explicit `send_raises` parameter)
is caught, logged and turned into `False`. -/
def send_websocket_message (ws : WS) (message : Message)
    (send_raises : Bool) : SendResult :=
  if is_websocket_open ws then
    if send_raises then { ok := false, delivered := none }
    else { ok := true, delivered := some (serialize_message message) }
  else { ok := false, delivered := none }

/-- An inbound relay frame: `async for` yields `str` or `bytes`. -/
inductive Frame where
  | text (s : String)
  | binary (payload : List Nat)
deriving Repr, BEq

/-- The value a frame has when passed to `ws.send`. -/
def Frame.toMessage : Frame → Message
  | .text s => .text s
  | .binary payload => .binary payload

/-- One iteration's environment in `proxy_task`: the frame the source
yielded, the target connection as observed at that iteration, and whether the
underlying `ws.send` would raise. -/
structure Step where
  msg : Frame
  target : WS
  send_raises : Bool

/-- How the source's `async for` iteration ends, when the loop body never
breaks: normal end of stream, a raised `ConnectionClosed` (with its close
code and reason), or any other exception (with its text). -/
inductive SourceEnd where
  | normal
  | conn_closed (code : Nat) (reason : String)
  | exn (msg : String)

/-- Embeds the `WebSocketError` exception class: a message and a close code
defaulting to 1011. -/
structure WebSocketError where
  message : String
  code : Nat := 1011
deriving DecidableEq, Repr

/-- How a forwarding task finishes: returning normally, or raising a
`WebSocketError`. -/
inductive TaskExit where
  | clean
  | err (e : WebSocketError)
deriving DecidableEq, Repr

/-- The `logger.info` / `logger.error` lines `proxy_task` can emit. -/
inductive LogEntry where
  | starting (name : String)
  | target_closed (name : String)
  | forwarding_json (name : String) (data : JsonVal)
  | forwarding_text (name : String) (msg : String)
  | forwarding_binary (name : String) (len : Nat)
  | conn_closed_log (name : String) (code : Nat) (reason : String)
  | task_error (name : String) (msg : String)

/-- Everything one run of `proxy_task` does: the frames delivered to the
target in order, how the task exited, the close frames it issued (none: the
function contains no `close` call) and its log. -/
structure TaskResult where
  delivered : List Frame
  exit : TaskExit
  closes : List (Nat × String)
  log : List LogEntry

/-- The diagnostic log line for one forwarded frame: text frames are run
through `json.loads` purely to choose the log wording. -/
def classify_log (name : String) : Frame → LogEntry
  | .text s =>
    match json_loads s with
    | some data => .forwarding_json name data
    | none => .forwarding_text name s
  | .binary payload => .forwarding_binary name payload.length

/-- The body of `proxy_task`'s `async for` loop together with its exception
handlers.  Each step checks `is_websocket_open(target)`, breaking if closed;
then forwards through `send_websocket_message`, breaking if it returned
`False`.  Only when every iteration passed does the end of the iteration
itself (`e`) decide the exit: a `ConnectionClosed` becomes
`WebSocketError("Connection closed: " + reason, code)`, any other exception
becomes `WebSocketError(str(e))` with the default code 1011. -/
def proxy_task_loop (name : String) : List Step → SourceEnd → TaskResult
  | [], e =>
    match e with
    | .normal => ⟨[], .clean, [], []⟩
    | .conn_closed code reason =>
      ⟨[], .err ⟨"Connection closed: " ++ reason, code⟩, [],
        [.conn_closed_log name code reason]⟩
    | .exn m => ⟨[], .err ⟨m, 1011⟩, [], [.task_error name m]⟩
  | s :: rest, e =>
    if is_websocket_open s.target then
      let entry := classify_log name s.msg
      if (send_websocket_message s.target s.msg.toMessage s.send_raises).ok then
        let r := proxy_task_loop name rest e
        ⟨s.msg :: r.delivered, r.exit, r.closes, entry :: r.log⟩
      else ⟨[], .clean, [], [entry]⟩
    else ⟨[], .clean, [], [.target_closed name]⟩

/-- Embeds `proxy_task`: logs the start line, then runs the forwarding loop.
The run is parameterized by the per-iteration environment (`steps`) and by
how the source iteration would end were it reached (`e`). -/
def proxy_task (name : String) (steps : List Step) (e : SourceEnd) : TaskResult :=
  let r := proxy_task_loop name steps e
  ⟨r.delivered, r.exit, r.closes, .starting name :: r.log⟩

/-- An iteration that neither breaks nor fails: the target is open and the
send succeeds. -/
def ok_step (s : Step) : Bool :=
  is_websocket_open s.target && !s.send_raises

/-- The exit `proxy_task` produces when no iteration breaks. -/
def end_exit : SourceEnd → TaskExit
  | .normal => .clean
  | .conn_closed code reason => .err ⟨"Connection closed: " ++ reason, code⟩
  | .exn m => .err ⟨m, 1011⟩

/-- The fixed setup message `create_proxy` sends upstream right after
connecting. -/
def setup_msg : JsonVal :=
  .obj
    [("contents",
       .arr [.obj [("role", .str "user"),
                   ("parts", .arr [.obj [("text", .str "Hello")]])]]),
     ("tools", .arr []),
     ("safety_settings", .arr []),
     ("generation_config",
       .obj [("stop_sequences", .arr []),
             ("temperature", .num "0.9"),
             ("top_p", .num "1"),
             ("top_k", .num "1"),
             ("max_output_tokens", .num "2048")])]

/-- Embeds the `uri` construction in `create_proxy`: `if service_url:` is
Python truthiness, so `None` and the empty string both fall back to the
default template. -/
def create_proxy_uri (api_key : String) (service_url : Option String) : String :=
  if (match service_url with
      | some u => !(u == "")
      | none => false) then
    service_url.getD "" ++ "?key=" ++ api_key
  else
    "wss://" ++ HOST ++ WEBSOCKET_PATH MODEL ++ "?key=" ++ api_key

/-- Outcome of `websockets.connect(uri, ...)`: a live connection, or an
exception with its text. -/
inductive ConnectOutcome where
  | connected (server : WS)
  | connect_error (msg : String)

/-- Outcome of `server_websocket.send(json.dumps(setup_msg))`. -/
inductive SetupSendOutcome where
  | sent
  | send_error (msg : String)

/-- What the first-completion race over the two forwarding tasks reported:
no completed task raised, or the first error re-raised while collecting the
`done` set (always a `WebSocketError`, since `proxy_task` raises nothing
else and cancelled tasks are awaited separately). -/
inductive RelayOutcome where
  | all_clean
  | task_failed (e : WebSocketError)

/-- Everything one run of `create_proxy` does. -/
structure ProxyResult where
  uri : String
  server_opened : Bool
  setup_frame : Option JsonVal
  client_error_attempts : List String
  client_error_frames : List Message
  client_close : Option (Nat × String)
  client_close_frame : Option (Nat × String)
  server_close_called : Bool
  server_close_frame : Option (Nat × String)

/-- The shared failure path of `create_proxy`: the `except` handlers send
`{"error": str(e)}` to the client best-effort, close the client with the
error's code and message, and the `finally` block closes the server
connection when one was opened. -/
def proxy_fail (uri : String) (client : WS) (client_send_raises : Bool)
    (e : WebSocketError) (server : Option WS) (setup_sent : Option JsonVal) :
    ProxyResult :=
  let sr := send_websocket_message client (.dict [("error", e.message)])
              client_send_raises
  let cc := close_websocket client e.code e.message
  { uri := uri
    server_opened := server.isSome
    setup_frame := setup_sent
    client_error_attempts := [e.message]
    client_error_frames := sr.delivered.toList
    client_close := some (e.code, e.message)
    client_close_frame := cc.close_frame
    server_close_called := server.isSome
    server_close_frame :=
      match server with
      | some sw => (close_websocket sw).close_frame
      | none => none }

/-- Embeds `create_proxy`.  The transport outcomes (connect, setup send, the
relay race, the error-frame send to the client) are explicit parameters.
A connect failure is wrapped as `WebSocketError("Failed to connect to
server: " + e)` with the default code 1011; a setup-send failure propagates
as a plain exception into the generic handler (also 1011); a relay task's
`WebSocketError` is re-raised and then re-wrapped as `WebSocketError(str(e))`,
which resets its close code to the default 1011. -/
def create_proxy (client : WS) (api_key : String) (service_url : Option String)
    (connect : ConnectOutcome) (setup : SetupSendOutcome)
    (relay : RelayOutcome) (client_send_raises : Bool) : ProxyResult :=
  let uri := create_proxy_uri api_key service_url
  match connect with
  | .connect_error m =>
    proxy_fail uri client client_send_raises
      ⟨"Failed to connect to server: " ++ m, 1011⟩ none none
  | .connected server =>
    match setup with
    | .send_error m =>
      proxy_fail uri client client_send_raises ⟨m, 1011⟩ (some server) none
    | .sent =>
      match relay with
      | .all_clean =>
        { uri := uri
          server_opened := true
          setup_frame := some setup_msg
          client_error_attempts := []
          client_error_frames := []
          client_close := none
          client_close_frame := none
          server_close_called := true
          server_close_frame := (close_websocket server).close_frame }
      | .task_failed e =>
        proxy_fail uri client client_send_raises ⟨e.message, 1011⟩
          (some server) (some setup_msg)

/-- How `asyncio.wait_for(client_websocket.recv(), timeout=10.0)` ends in
`handle_client`: a frame, an `asyncio.TimeoutError`, or any other
exception. -/
inductive AuthRecv where
  | frame (s : String)
  | timeout
  | recv_error (msg : String)

/-- Everything one run of `handle_client` does up to (and excluding) the
inner `create_proxy` call: the `(api_key, service_url)` pair handed to
`create_proxy` when it is reached (`JsonVal.null` standing for Python
`None`), the error frames attempted/delivered, and the close call issued. -/
structure HandleResult where
  upstream : Option (JsonVal × JsonVal)
  error_attempts : List String
  error_frames : List Message
  close_call : Option (Nat × String)
  close_frame : Option (Nat × String)

/-- Embeds `handle_client`.  On a frame, `json.loads` decides the path: a
parse failure hands the raw frame to `create_proxy` as the API key; a decoded
mapping yields `auth_data.get("api_key")` / `auth_data.get("service_url")`;
any other decoded value falls back to the raw frame.  On the latter two paths
a falsy API key raises `WebSocketError("API key not found in auth message",
4000)`, which the outer handler reports and closes with.  A timeout closes
with 4001; any other receive error is reported and closed with 1011. -/
def handle_client (client : WS) (recv : AuthRecv)
    (client_send_raises : Bool) : HandleResult :=
  match recv with
  | .timeout =>
    let cc := close_websocket client 4001 "Authentication timeout"
    ⟨none, [], [], some (4001, "Authentication timeout"), cc.close_frame⟩
  | .recv_error m =>
    let sr := send_websocket_message client (.dict [("error", m)])
                client_send_raises
    let cc := close_websocket client 1011 m
    ⟨none, [m], sr.delivered.toList, some (1011, m), cc.close_frame⟩
  | .frame auth_message =>
    match json_loads auth_message with
    | none => ⟨some (.str auth_message, .null), [], [], none, none⟩
    | some auth_data =>
      let extracted : JsonVal × JsonVal :=
        match auth_data with
        | .obj fields =>
          ((dict_get fields "api_key").getD .null,
           (dict_get fields "service_url").getD .null)
        | _ => (.str auth_message, .null)
      if json_truthy extracted.1 then
        ⟨some extracted, [], [], none, none⟩
      else
        let msg := "API key not found in auth message"
        let sr := send_websocket_message client (.dict [("error", msg)])
                    client_send_raises
        let cc := close_websocket client 4000 msg
        ⟨none, [msg], sr.delivered.toList, some (4000, msg), cc.close_frame⟩

/-- A connection exposing `state = OPEN` directly. -/
def wsOpen : WS := ⟨some State.OPEN, none, true⟩

/-- A connection exposing `state = CLOSED` directly. -/
def wsClosed : WS := ⟨some State.CLOSED, none, true⟩

/-- A connection exposing its state only through `connection.state`. -/
def wsConnOpen : WS := ⟨none, some State.OPEN, true⟩

/-- A connection exposing `connection.state = CLOSED` and no `state`. -/
def wsConnClosed : WS := ⟨none, some State.CLOSED, true⟩

/-- The auth frame `{"api_key": "k1"}`. -/
def auth_frame_k1 : String := "\x7b\"api_key\": \"k1\"\x7d"

/-- The auth frame `\x7b"bearer_token": "\x7b\"api_key\": \"k1\"\x7d"\x7d`:
a mapping whose only field is a stringified mapping containing `api_key`. -/
def bearer_frame : String :=
  "\x7b\"bearer_token\": \"\x7b\\\"api_key\\\": \\\"k1\\\"\x7d\"\x7d"

theorem send_websocket_message_ok (ws : WS) (m : Message) (r : Bool) :
    (send_websocket_message ws m r).ok = (is_websocket_open ws && !r) := by
  unfold send_websocket_message
  by_cases h : is_websocket_open ws = true <;> cases r <;>
    simp_all

theorem serialize_frame_id (f : Frame) :
    serialize_message f.toMessage = f.toMessage := by
  cases f <;> rfl

theorem proxy_task_loop_closes (name : String) (steps : List Step)
    (e : SourceEnd) : (proxy_task_loop name steps e).closes = [] := by
  induction steps with
  | nil => cases e <;> rfl
  | cons s rest ih =>
    by_cases h1 : is_websocket_open s.target = true <;>
      by_cases h2 : s.send_raises = true <;>
        simp [proxy_task_loop, send_websocket_message_ok, h1, h2, ih]

theorem proxy_task_loop_delivered (name : String) (steps : List Step)
    (e : SourceEnd) :
    (proxy_task_loop name steps e).delivered =
      (steps.takeWhile ok_step).map Step.msg := by
  induction steps with
  | nil => cases e <;> rfl
  | cons s rest ih =>
    by_cases h1 : is_websocket_open s.target = true <;>
      by_cases h2 : s.send_raises = true <;>
        simp [proxy_task_loop, send_websocket_message_ok, h1, h2, ok_step,
          List.takeWhile_cons, ih]

theorem proxy_task_loop_exit_ok (name : String) (steps : List Step)
    (e : SourceEnd) (h : ∀ s ∈ steps, ok_step s = true) :
    (proxy_task_loop name steps e).exit = end_exit e := by
  induction steps with
  | nil => cases e <;> rfl
  | cons s rest ih =>
    have hs := h s (List.mem_cons_self s rest)
    simp only [ok_step, Bool.and_eq_true, Bool.not_eq_true'] at hs
    simp [proxy_task_loop, send_websocket_message_ok, hs.1, hs.2,
      ih (fun t ht => h t (List.mem_cons_of_mem s ht))]

theorem proxy_task_loop_break (name : String) (pre : List Step) (s : Step)
    (rest : List Step) (e : SourceEnd)
    (hpre : ∀ t ∈ pre, ok_step t = true) (hs : ok_step s = false) :
    (proxy_task_loop name (pre ++ s :: rest) e).delivered = pre.map Step.msg ∧
    (proxy_task_loop name (pre ++ s :: rest) e).exit = TaskExit.clean := by
  induction pre with
  | nil =>
    by_cases h1 : is_websocket_open s.target = true
    · have h2 : s.send_raises = true := by
        simp only [ok_step, h1, Bool.true_and, Bool.not_eq_false'] at hs
        exact hs
      simp [proxy_task_loop, send_websocket_message_ok, h1, h2]
    · simp [proxy_task_loop, h1]
  | cons t pre' ih =>
    have ht := hpre t (List.mem_cons_self t pre')
    simp only [ok_step, Bool.and_eq_true, Bool.not_eq_true'] at ht
    have ih' := ih (fun u hu => hpre u (List.mem_cons_of_mem t hu))
    simp [proxy_task_loop, send_websocket_message_ok, ht.1, ht.2, ih'.1, ih'.2]

/-- C4: for every sequence of frames received on one direction of the relay,
text and binary alike, the frames that reach the destination are exactly an
initial segment of those received — byte-for-byte identical and in the same
order — and the frame put on the wire by a successful send is the received
frame itself, whatever the outcome of the diagnostic JSON parse of a text
frame (the parse result feeds only the log). -/
theorem relay_preserves_frames :
    ∀ (name : String) (steps : List Step) (e : SourceEnd),
      ((proxy_task name steps e).delivered <+: steps.map Step.msg) ∧
      ∀ (ws : WS) (f : Frame) (r : Bool),
        (send_websocket_message ws f.toMessage r).delivered =
          (if is_websocket_open ws && !r then some f.toMessage else none) := by
  intro name steps e
  constructor
  · show (proxy_task_loop name steps e).delivered <+: steps.map Step.msg
    rw [proxy_task_loop_delivered]
    exact List.IsPrefix.map Step.msg ( List.takeWhile_prefix ok_step)
  · intro ws f r
    unfold send_websocket_message
    by_cases h : is_websocket_open ws = true <;> cases r <;>
      simp_all [serialize_frame_id]

/-- C8: a frame is forwarded only while the destination's observed state is
`OPEN` (every step that delivers satisfies the open check), `proxy_task`
issues no close calls of its own, and when the destination is found not open
after a run of successful steps the loop exits cleanly, having delivered
exactly the earlier frames. -/
theorem forward_only_when_open :
    ∀ (name : String) (steps : List Step) (e : SourceEnd),
      (∀ s ∈ steps.takeWhile ok_step, is_websocket_open s.target = true) ∧
      (proxy_task name steps e).delivered = (steps.takeWhile ok_step).map Step.msg ∧
      (proxy_task name steps e).closes = [] ∧
      ∀ (pre : List Step) (s : Step) (rest : List Step),
        steps = pre ++ s :: rest → (∀ t ∈ pre, ok_step t = true) →
        is_websocket_open s.target = false →
        (proxy_task name steps e).delivered = pre.map Step.msg ∧
        (proxy_task name steps e).exit = TaskExit.clean := by
  intro name steps e
  refine ⟨?_, ?_, ?_, ?_⟩
  · intro s hs
    have := List.mem_takeWhile_imp hs
    simp only [ok_step, Bool.and_eq_true] at this
    exact this.1
  · exact proxy_task_loop_delivered name steps e
  · exact proxy_task_loop_closes name steps e
  · intro pre s rest hsteps hpre hclosed
    subst hsteps
    have hs : ok_step s = false := by
      simp [ok_step, hclosed]
    exact proxy_task_loop_break name pre s rest e hpre hs

/-- C8 witness: with a single step whose destination reports `CLOSED`, the
loop forwards nothing and exits cleanly. -/
theorem forward_only_when_open_wit :
    (proxy_task "client->server" [⟨Frame.text "hi", wsClosed, false⟩]
        SourceEnd.normal).delivered = [] ∧
    (proxy_task "client->server" [⟨Frame.text "hi", wsClosed, false⟩]
        SourceEnd.normal).exit = TaskExit.clean := by
  have h := (forward_only_when_open "client->server"
      [⟨Frame.text "hi", wsClosed, false⟩] SourceEnd.normal).2.2.2
      [] ⟨Frame.text "hi", wsClosed, false⟩ [] rfl (by intro t ht; cases ht)
      (by rfl)
  exact ⟨h.1, h.2⟩

/-- C1 counterexample: a send failure (destination open, transport send
raises) makes the loop exit *cleanly* — no `ProxyError` is raised, contrary
to the claim that a failed forward raises a `ProxyError` tagged with the
direction and a close code. -/
theorem send_failure_exits_clean_cex :
    (proxy_task "client->server" [⟨Frame.text "hello", wsOpen, true⟩]
        SourceEnd.normal).exit = TaskExit.clean ∧
    (proxy_task "client->server" [⟨Frame.text "hello", wsOpen, true⟩]
        SourceEnd.normal).delivered = [] :=
  ⟨rfl, rfl⟩

/-- C1 amended: a failed forward (destination not open, or the send raising)
ends the loop cleanly without raising; a `WebSocketError` is raised only by
the source side of the loop — `Connection closed: reason` with the source's
propagated close code on a closed-connection condition, or the exception
text with the default code 1011 otherwise — and the direction name appears
only in the log, not in the error. -/
theorem proxy_task_error_policy :
    ∀ (name : String) (steps : List Step) (e : SourceEnd),
      ((∀ s ∈ steps, ok_step s = true) →
        (proxy_task name steps e).exit = end_exit e) ∧
      ∀ (pre : List Step) (s : Step) (rest : List Step),
        steps = pre ++ s :: rest → (∀ t ∈ pre, ok_step t = true) →
        ok_step s = false →
        (proxy_task name steps e).exit = TaskExit.clean := by
  intro name steps e
  constructor
  · intro h
    exact proxy_task_loop_exit_ok name steps e h
  · intro pre s rest hsteps hpre hs
    subst hsteps
    exact (proxy_task_loop_break name pre s rest e hpre hs).2

/-- C1 amended witness: a loop whose only step succeeds and whose source
then reports `ConnectionClosed(code=1006, reason="going away")` raises
`WebSocketError("Connection closed: going away", 1006)`. -/
theorem proxy_task_error_policy_wit :
    (proxy_task "server->client" [⟨Frame.text "x", wsOpen, false⟩]
        (SourceEnd.conn_closed 1006 "going away")).exit =
      TaskExit.err ⟨"Connection closed: going away", 1006⟩ := by
  have h := (proxy_task_error_policy "server->client"
      [⟨Frame.text "x", wsOpen, false⟩]
      (SourceEnd.conn_closed 1006 "going away")).1
  exact h (by intro s hs; simp at hs; subst hs; rfl)

/-- C9: closing through `close_websocket` a connection whose observed state
is already `CLOSED` (whichever accessor shape reports it) raises nothing and
issues no close frame — the call is a no-op. -/
theorem close_websocket_idempotent :
    ∀ (ws : WS) (code : Nat) (reason : String),
      get_websocket_state ws = State.CLOSED →
      (close_websocket ws code reason).close_frame = none ∧
      (close_websocket ws code reason).raised = false := by
  intro ws code reason h
  have hopen : is_websocket_open ws = false := by
    unfold is_websocket_open
    rw [h]
  unfold close_websocket
  simp [hopen]

/-- C9 witness: a second teardown close of an already-closed connection
(state reported through `connection.state`) sends nothing and raises
nothing. -/
theorem close_websocket_idempotent_wit :
    get_websocket_state wsConnClosed = State.CLOSED ∧
    (close_websocket wsConnClosed 1000 "Normal closure").close_frame = none ∧
    (close_websocket wsConnClosed 1000 "Normal closure").raised = false :=
  ⟨rfl, close_websocket_idempotent wsConnClosed 1000 "Normal closure" rfl⟩

/-- C2 counterexample: a clean shutdown (both forwarding tasks finished, no
`WebSocketError`) leaves the client connection untouched — `create_proxy`
issues no close call and no close frame toward the client, contrary to the
claim that teardown still closes the client with a normal-closure code. -/
theorem clean_shutdown_no_client_close_cex :
    (create_proxy wsOpen "k1" none (ConnectOutcome.connected wsOpen)
        SetupSendOutcome.sent RelayOutcome.all_clean false).client_close = none ∧
    (create_proxy wsOpen "k1" none (ConnectOutcome.connected wsOpen)
        SetupSendOutcome.sent RelayOutcome.all_clean false).client_close_frame =
      none :=
  ⟨rfl, rfl⟩

/-- C2 amended: on a clean shutdown `create_proxy` closes only the upstream
connection (the client connection is left to the serving layer, with no
error frame and no client close call); when a `WebSocketError` is carried
out of the relay it is re-wrapped with the default code, a single JSON
error notification frame is attempted best-effort (delivered exactly when
the client is open and the send does not raise) and the client is closed
with that carried error's close code 1011 and its message. -/
theorem teardown_policy :
    ∀ (client server : WS) (key : String) (url : Option String)
      (e : WebSocketError) (csr : Bool),
      (let r := create_proxy client key url (ConnectOutcome.connected server)
          SetupSendOutcome.sent RelayOutcome.all_clean csr
       r.client_close = none ∧ r.client_close_frame = none ∧
       r.client_error_attempts = [] ∧ r.server_close_called = true ∧
       r.server_close_frame = (close_websocket server).close_frame) ∧
      (let r := create_proxy client key url (ConnectOutcome.connected server)
          SetupSendOutcome.sent (RelayOutcome.task_failed e) csr
       r.client_error_attempts = [e.message] ∧
       r.client_error_frames =
         (if is_websocket_open client && !csr then
            [Message.text (json_dumps_dict [("error", e.message)])] else []) ∧
       r.client_close = some (1011, e.message) ∧
       r.server_close_called = true) := by
  intro client server key url e csr
  refine ⟨⟨rfl, rfl, rfl, rfl, rfl⟩, rfl, ?_, rfl, rfl⟩
  show (send_websocket_message client
      (Message.dict [("error", e.message)]) csr).delivered.toList = _
  unfold send_websocket_message
  by_cases h : is_websocket_open client = true <;> cases csr <;>
    simp_all [serialize_message]

/-- C5: a failure of the upstream connector surfaces as a `WebSocketError`
with close code 1011 wrapping the underlying cause; with the client open and
the notification send not raising, the client receives exactly one error
frame with a non-empty message and is closed with code 1011; a connect
failure opens nothing upstream, and a setup-send failure closes the opened
upstream connection in the `finally` block, so no half-open upstream
connection remains. -/
theorem connector_failure_behavior :
    ∀ (client server : WS) (key : String) (url : Option String) (m : String)
      (setup : SetupSendOutcome) (relay : RelayOutcome),
      is_websocket_open client = true → client.has_close = true → m ≠ "" →
      (let r := create_proxy client key url (ConnectOutcome.connect_error m)
          setup relay false
       r.client_error_attempts = ["Failed to connect to server: " ++ m] ∧
       r.client_error_frames =
         [Message.text (json_dumps_dict
            [("error", "Failed to connect to server: " ++ m)])] ∧
       "Failed to connect to server: " ++ m ≠ "" ∧
       r.client_close = some (1011, "Failed to connect to server: " ++ m) ∧
       r.client_close_frame =
         some (1011, "Failed to connect to server: " ++ m) ∧
       r.server_opened = false ∧ r.server_close_called = false) ∧
      (let r := create_proxy client key url (ConnectOutcome.connected server)
          (SetupSendOutcome.send_error m) relay false
       r.client_error_attempts = [m] ∧
       r.client_error_frames = [Message.text (json_dumps_dict [("error", m)])] ∧
       m ≠ "" ∧
       r.client_close = some (1011, m) ∧
       r.client_close_frame = some (1011, m) ∧
       r.server_opened = true ∧ r.server_close_called = true) := by
  intro client server key url m setup relay hopen hclose hm
  have hframe : ∀ msg : String,
      (send_websocket_message client (Message.dict [("error", msg)])
        false).delivered.toList =
        [Message.text (json_dumps_dict [("error", msg)])] := by
    intro msg
    unfold send_websocket_message
    simp [hopen, serialize_message]
  have hcf : ∀ (code : Nat) (msg : String),
      (close_websocket client code msg).close_frame = some (code, msg) := by
    intro code msg
    unfold close_websocket
    simp [hopen, hclose]
  have hne : "Failed to connect to server: " ++ m ≠ "" := by
    intro hcontra
    have := congrArg String.length hcontra
    simp [String.length_append] at this
    exact absurd this.1 (by decide)
  refine ⟨⟨rfl, hframe _, hne, rfl, hcf _ _, rfl, rfl⟩,
          rfl, hframe _, hm, rfl, hcf _ _, rfl, rfl⟩

/-- C5 witness: a simulated connection refusal with an open client. -/
theorem connector_failure_behavior_wit :
    (create_proxy wsOpen "k" none (ConnectOutcome.connect_error "refused")
        SetupSendOutcome.sent RelayOutcome.all_clean false).client_close =
      some (1011, "Failed to connect to server: " ++ "refused") ∧
    (create_proxy wsOpen "k" none (ConnectOutcome.connect_error "refused")
        SetupSendOutcome.sent RelayOutcome.all_clean false).client_error_frames =
      [Message.text (json_dumps_dict
        [("error", "Failed to connect to server: " ++ "refused")])] ∧
    (create_proxy wsOpen "k" none (ConnectOutcome.connect_error "refused")
        SetupSendOutcome.sent RelayOutcome.all_clean false).server_opened =
      false := by
  have h := (connector_failure_behavior wsOpen wsOpen "k" none "refused"
      SetupSendOutcome.sent RelayOutcome.all_clean rfl rfl (by decide)).1
  exact ⟨h.2.2.2.1, h.2.1, h.2.2.2.2.2.1⟩

/-- C6: with a supplied non-empty override service URL `u` the upstream
endpoint is exactly `u ++ "?key=" ++ k`; without one it is the default
template over the fixed host and the streaming-generation path of the
configured model, with the same query parameter; and `create_proxy` uses
exactly this construction. -/
theorem upstream_uri_construction :
    ∀ (k u : String) (client : WS) (c : ConnectOutcome) (s : SetupSendOutcome)
      (rl : RelayOutcome) (csr : Bool) (url : Option String),
      (u ≠ "" → create_proxy_uri k (some u) = u ++ "?key=" ++ k) ∧
      create_proxy_uri k none =
        "wss://" ++ HOST ++ WEBSOCKET_PATH MODEL ++ "?key=" ++ k ∧
      (create_proxy client k url c s rl csr).uri = create_proxy_uri k url := by
  intro k u client c s rl csr url
  refine ⟨?_, rfl, ?_⟩
  · intro hu
    have : (u == "") = false := by simp [hu]
    simp [create_proxy_uri, this]
  · cases c with
    | connect_error m => rfl
    | connected server =>
      cases s with
      | send_error m => rfl
      | sent => cases rl <;> rfl

/-- C6 witness: the two endpoint shapes at the spec's concrete inputs. -/
theorem upstream_uri_construction_wit :
    create_proxy_uri "k1" (some "wss://custom/x") = "wss://custom/x?key=k1" ∧
    create_proxy_uri "k1" none =
      "wss://generativelanguage.googleapis.com/v1beta/models/gemini-2.0-flash-exp:streamGenerateContent?key=k1" := by
  have h := upstream_uri_construction "k1" "wss://custom/x" wsOpen
      (ConnectOutcome.connect_error "x") SetupSendOutcome.sent
      RelayOutcome.all_clean false none
  constructor
  · rw [h.1 (by decide)]
    rfl
  · rw [h.2.1]
    rfl

/-- C7: when no first frame arrives within the auth timeout, `handle_client`
closes the client with close code 4001 and reason `Authentication timeout`
(the close frame going out exactly when the client is still open), sends no
error frame, and never reaches `create_proxy` — no upstream connection is
attempted. -/
theorem auth_timeout_behavior :
    ∀ (client : WS) (csr : Bool),
      (handle_client client AuthRecv.timeout csr).upstream = none ∧
      (handle_client client AuthRecv.timeout csr).close_call =
        some (4001, "Authentication timeout") ∧
      (handle_client client AuthRecv.timeout csr).error_attempts = [] ∧
      (handle_client client AuthRecv.timeout csr).close_frame =
        (if client.has_close && is_websocket_open client then
           some (4001, "Authentication timeout") else none) := by
  intro client csr
  refine ⟨rfl, rfl, rfl, ?_⟩
  show (close_websocket client 4001 "Authentication timeout").close_frame = _
  unfold close_websocket
  by_cases h : (client.has_close && is_websocket_open client) = true <;>
    simp [h]

/-- C3 counterexample: a first frame that is a JSON mapping carrying the API
key only inside a stringified `bearer_token` mapping is rejected with close
code 4000 — `handle_client` never unwraps the nested field, contrary to the
claim that the key is extracted by unwrapping one level. -/
theorem bearer_token_not_unwrapped_cex :
    (handle_client wsOpen (AuthRecv.frame bearer_frame) false).upstream =
      none ∧
    (handle_client wsOpen (AuthRecv.frame bearer_frame) false).close_call =
      some (4000, "API key not found in auth message") :=
  ⟨rfl, rfl⟩

/-- C3 amended: for a first frame decoding to a JSON mapping, the Auth Gate
reads `api_key` directly from the mapping only (no bearer-token unwrapping)
together with the optional `service_url`; when the direct `api_key` is
missing or falsy the session fails with close code 4000 and message
`API key not found in auth message`. -/
theorem auth_gate_api_key_extraction :
    ∀ (client : WS) (csr : Bool) (s : String)
      (fields : List (String × JsonVal)),
      json_loads s = some (JsonVal.obj fields) →
      (json_truthy ((dict_get fields "api_key").getD JsonVal.null) = true →
        (handle_client client (AuthRecv.frame s) csr).upstream =
          some ((dict_get fields "api_key").getD JsonVal.null,
                (dict_get fields "service_url").getD JsonVal.null)) ∧
      (json_truthy ((dict_get fields "api_key").getD JsonVal.null) = false →
        (handle_client client (AuthRecv.frame s) csr).upstream = none ∧
        (handle_client client (AuthRecv.frame s) csr).close_call =
          some (4000, "API key not found in auth message")) := by
  intro client csr s fields hp
  constructor
  · intro ht
    simp [handle_client, hp, ht]
  · intro hf
    refine ⟨?_, ?_⟩ <;> simp [handle_client, hp, hf]

/-- C3 amended witness: the frame with a direct `api_key` is handed to the
proxy as-is. -/
theorem auth_gate_api_key_extraction_wit :
    (handle_client wsOpen (AuthRecv.frame auth_frame_k1) false).upstream =
      some (JsonVal.str "k1", JsonVal.null) := by
  have h := (auth_gate_api_key_extraction wsOpen false auth_frame_k1
      [("api_key", JsonVal.str "k1")] rfl).1 rfl
  exact h

/-- C10: a first frame decoding to a JSON mapping whose `api_key` is absent,
null or the empty string is rejected with close code 4000 and the proxy is
never created, while a first frame that is not valid JSON — the empty frame
included — is accepted verbatim as the API key with no non-emptiness check:
the empty key is rejected on the structured path yet accepted on the raw
path. -/
theorem api_key_falsy_structured_vs_raw :
    ∀ (client : WS) (csr : Bool) (s : String)
      (fields : List (String × JsonVal)),
      (json_loads s = some (JsonVal.obj fields) →
        (dict_get fields "api_key" = none ∨
         dict_get fields "api_key" = some JsonVal.null ∨
         dict_get fields "api_key" = some (JsonVal.str "")) →
        (handle_client client (AuthRecv.frame s) csr).upstream = none ∧
        (handle_client client (AuthRecv.frame s) csr).close_call =
          some (4000, "API key not found in auth message")) ∧
      (json_loads s = none →
        (handle_client client (AuthRecv.frame s) csr).upstream =
          some (JsonVal.str s, JsonVal.null) ∧
        (handle_client client (AuthRecv.frame s) csr).close_call = none) ∧
      (handle_client client (AuthRecv.frame "") csr).upstream =
        some (JsonVal.str "", JsonVal.null) := by
  intro client csr s fields
  refine ⟨?_, ?_, rfl⟩
  · intro hp hcase
    have hf : json_truthy ((dict_get fields "api_key").getD JsonVal.null) =
        false := by
      rcases hcase with h | h | h <;> simp [h, json_truthy]
    refine ⟨?_, ?_⟩ <;> simp [handle_client, hp, hf]
  · intro hp
    refine ⟨?_, ?_⟩ <;> simp [handle_client, hp]

/-- C10 witness: `{"api_key": ""}` is rejected on the structured path while
the non-JSON frame `rawkey123` is accepted verbatim as the key. -/
theorem api_key_falsy_structured_vs_raw_wit :
    (handle_client wsOpen (AuthRecv.frame "\x7b\"api_key\": \"\"\x7d")
        false).upstream = none ∧
    (handle_client wsOpen (AuthRecv.frame "rawkey123") false).upstream =
      some (JsonVal.str "rawkey123", JsonVal.null) := by
  constructor
  · exact ((api_key_falsy_structured_vs_raw wsOpen false
      "\x7b\"api_key\": \"\"\x7d" [("api_key", JsonVal.str "")]).1 rfl
      (Or.inr (Or.inr rfl))).1
  · exact ((api_key_falsy_structured_vs_raw wsOpen false "rawkey123" []).2.1
      rfl).1

end GenAIProxy
